import Mathlib

/-!
Shallow embedding of `src/src/message.rs` from the rust-websocket repository:
the `Message` data model, its constructors, its `DataFrame` implementation
(`is_last`, `opcode`, `reserved`, `payload`, `write_payload`), and the
`ws::Message` implementation (`dataframes`, `from_dataframes`).

Modelling conventions:
- Rust byte slices / `Vec<u8>` / `Cow<[u8]>` are `List Nat` (each element a
  byte value); the owned/borrowed distinction of `Cow` is immaterial to the
  properties below and is not modelled.
- Rust strings (`String` / `Cow<str>`) are modelled as their UTF-8 byte
  sequences (`List Nat`); `into_bytes` / `as_bytes` is then the identity.
- A sink (`W: Write`) is the list of bytes written so far; a successful write
  appends to it.  Sink I/O failure is outside the model.
- `unimplemented!()` (the `payload()` accessor of a `Message` used as its own
  frame) is a panic: an accessor that panics is modelled by `none`, and a run
  of `from_dataframes` that would call it returns no result at all (`none` at
  the outer `Option` layer), distinct from every `Err` outcome.
-/

/-- Opcode of a data frame (from `dataframe.rs`, not under `src/`; the
enumeration is the spec's foundational vocabulary: Continuation, Text,
Binary, Close, Ping, Pong). -/
inductive Opcode where
  | Continuation
  | Text
  | Binary
  | Close
  | Ping
  | Pong
  deriving DecidableEq

/-- Modelled from the spec: `WebSocketError` (from `result.rs`, not under
`src/`).  `ProtocolError` carries a descriptive reason; `Utf8Error` is the
error bubbled up by a failed UTF-8 decode; `IoError` is the error bubbled up
by a failed / short read or write. -/
inductive WebSocketError where
  | ProtocolError (reason : String)
  | Utf8Error
  | IoError
  deriving DecidableEq

deriving instance DecidableEq for Except

/-- `WebSocketResult<T>` is `Result<T, WebSocketError>`. -/
abbrev WebSocketResult (α : Type) := Except WebSocketError α

/-- The `Message` struct: opcode, optional close status code (`u16`,
modelled as `Nat`), payload bytes. -/
structure Message where
  opcode : Opcode
  cd_status_code : Option Nat
  payload : List Nat
  deriving DecidableEq

/-- A received data frame: the record of the results of the `DataFrame`
trait accessors used by `from_dataframes`.  `payloadBytes = none` models an
implementation whose `payload()` accessor panics (`unimplemented!()`), as in
the `DataFrame` impl for `Message` itself. -/
structure Frame where
  is_last : Bool
  opcode : Opcode
  reserved : List Bool
  payloadBytes : Option (List Nat)
  deriving DecidableEq

/-- The constant `FALSE_RESERVED_BITS: &[bool; 3] = &[false; 3]`. -/
def FALSE_RESERVED_BITS : List Bool := List.replicate 3 false

/-- `Message::new(code, status, payload)`. -/
def Message.new (code : Opcode) (status : Option Nat) (payload : List Nat) :
    Message :=
  { opcode := code, cd_status_code := status, payload := payload }

/-- `Message::text(data)`: opcode Text, payload the UTF-8 bytes of `data`
(strings are modelled as their byte sequences, so `into_bytes`/`as_bytes`
is the identity). -/
def Message.text (data : List Nat) : Message :=
  Message.new Opcode.Text none data

/-- `Message::binary(data)`. -/
def Message.binary (data : List Nat) : Message :=
  Message.new Opcode.Binary none data

/-- `Message::close()`: opcode Close, no status code, empty payload. -/
def Message.close : Message :=
  Message.new Opcode.Close none []

/-- `Message::close_because(code, reason)`: opcode Close, status `code`,
payload the UTF-8 bytes of `reason`. -/
def Message.close_because (code : Nat) (reason : List Nat) : Message :=
  Message.new Opcode.Close (some code) reason

/-- `Message::ping(data)`. -/
def Message.ping (data : List Nat) : Message :=
  Message.new Opcode.Ping none data

/-- `Message::pong(data)`. -/
def Message.pong (data : List Nat) : Message :=
  Message.new Opcode.Pong none data

/-- The `DataFrame` impl for `Message`, as the record of its accessors:
`is_last()` returns `true`, `opcode()` returns `self.opcode`, `reserved()`
returns `FALSE_RESERVED_BITS`, and `payload()` is `unimplemented!()`
(a panic, modelled by `none`). -/
def Message.asFrame (m : Message) : Frame :=
  { is_last := true
    opcode := m.opcode
    reserved := FALSE_RESERVED_BITS
    payloadBytes := none }

/-- Modelled from the spec: `write_u16::<BigEndian>` of the byteorder crate
(external collaborator) appends the value as 2 bytes big-endian to the sink. -/
def writeU16BE (sink : List Nat) (v : Nat) : List Nat :=
  sink ++ [v / 256 % 256, v % 256]

/-- `write_all` appends the bytes to the sink. -/
def writeAll (sink : List Nat) (bs : List Nat) : List Nat :=
  sink ++ bs

/-- `Message::write_payload(socket)`: if a close status code is present,
write it as 2 bytes big-endian first; then write the raw payload bytes.
The sink is the list of bytes written so far; the result is the sink after
the call. -/
def Message.write_payload (m : Message) (sink : List Nat) : List Nat :=
  writeAll
    (match m.cd_status_code with
      | some reason => writeU16BE sink reason
      | none => sink)
    m.payload

/-- `Message::dataframes()`: `repeat(self.clone()).take(1)`, the one-element
sequence holding a clone of the message itself. -/
def Message.dataframes (m : Message) : List Message :=
  List.replicate 1 m

/-- Modelled from the spec: `read_u16::<BigEndian>` of the byteorder crate
(external collaborator) on a byte slice reads the first 2 bytes as a
big-endian value, failing with a short-read I/O error when fewer than 2
bytes are present. -/
def readU16BE : List Nat → WebSocketResult Nat
  | b0 :: b1 :: _ => Except.ok (b0 * 256 + b1)
  | _ => Except.error WebSocketError.IoError

/-- Helper for the UTF-8 validator: a continuation byte is in 0x80..=0xBF. -/
def isContByte (b : Nat) : Bool :=
  decide (0x80 ≤ b) && decide (b ≤ 0xBF)

/-- Executable UTF-8 validity check on a byte sequence (well-formed encoding,
no overlong forms, no surrogates, max U+10FFFF). -/
def utf8Valid : List Nat → Bool
  | [] => true
  | b :: rest =>
    if b ≤ 0x7F then
      utf8Valid rest
    else if 0xC2 ≤ b ∧ b ≤ 0xDF then
      match rest with
      | b1 :: r => isContByte b1 && utf8Valid r
      | [] => false
    else if b = 0xE0 then
      match rest with
      | b1 :: b2 :: r =>
        (decide (0xA0 ≤ b1) && decide (b1 ≤ 0xBF)) && isContByte b2 &&
          utf8Valid r
      | _ => false
    else if b = 0xED then
      match rest with
      | b1 :: b2 :: r =>
        (decide (0x80 ≤ b1) && decide (b1 ≤ 0x9F)) && isContByte b2 &&
          utf8Valid r
      | _ => false
    else if (0xE1 ≤ b ∧ b ≤ 0xEF) then
      match rest with
      | b1 :: b2 :: r => isContByte b1 && isContByte b2 && utf8Valid r
      | _ => false
    else if b = 0xF0 then
      match rest with
      | b1 :: b2 :: b3 :: r =>
        (decide (0x90 ≤ b1) && decide (b1 ≤ 0xBF)) && isContByte b2 &&
          isContByte b3 && utf8Valid r
      | _ => false
    else if 0xF1 ≤ b ∧ b ≤ 0xF3 then
      match rest with
      | b1 :: b2 :: b3 :: r =>
        isContByte b1 && isContByte b2 && isContByte b3 && utf8Valid r
      | _ => false
    else if b = 0xF4 then
      match rest with
      | b1 :: b2 :: b3 :: r =>
        (decide (0x80 ≤ b1) && decide (b1 ≤ 0x8F)) && isContByte b2 &&
          isContByte b3 && utf8Valid r
      | _ => false
    else
      false

/-- Modelled from the spec: `ws::util::message::bytes_to_string` (not under
`src/`): decode a byte sequence as UTF-8, failing on invalid sequences.
Strings are modelled as their UTF-8 byte sequences, so a successful decode
returns the bytes themselves. -/
def bytes_to_string (data : List Nat) : WebSocketResult (List Nat) :=
  if utf8Valid data then Except.ok data else Except.error WebSocketError.Utf8Error

/-- The validation loop of `from_dataframes`: for each frame, in order, fail
if its opcode is not Continuation, then fail if its reserved bits are not
`[false; 3]`, then append its payload bytes to the accumulated data.  The
outer `Option` layer distinguishes a panic (`none`, reached when a frame's
`payload()` accessor is `unimplemented!()`) from a returned `Result`. -/
def collectPayloads : List Frame → Option (WebSocketResult (List Nat))
  | [] => some (Except.ok [])
  | f :: rest =>
    if f.opcode ≠ Opcode.Continuation then
      some (Except.error (WebSocketError.ProtocolError
        "Unexpected non-continuation data frame"))
    else if f.reserved ≠ List.replicate 3 false then
      some (Except.error (WebSocketError.ProtocolError
        "Unsupported reserved bits received"))
    else
      match f.payloadBytes with
      | none => none
      | some p =>
        match collectPayloads rest with
        | none => none
        | some (Except.error e) => some (Except.error e)
        | some (Except.ok d) => some (Except.ok (p ++ d))

/-- The final `Ok(match opcode { ... })` dispatch of `from_dataframes`,
on the opcode of the first frame and the concatenated payload data:
Text decodes the data as UTF-8; Binary, Ping, Pong take the data as-is;
Close with non-empty data reads a 2-byte big-endian status code then decodes
the rest as the UTF-8 reason, and with empty data builds a bare close; every
other opcode (Continuation) is unsupported. -/
def dispatchOpcode (opcode : Opcode) (data : List Nat) :
    WebSocketResult Message :=
  match opcode with
  | Opcode.Text =>
    match bytes_to_string data with
    | Except.error e => Except.error e
    | Except.ok s => Except.ok (Message.text s)
  | Opcode.Binary => Except.ok (Message.binary data)
  | Opcode.Close =>
    if data.length > 0 then
      match readU16BE data with
      | Except.error e => Except.error e
      | Except.ok status_code =>
        match bytes_to_string (data.drop 2) with
        | Except.error e => Except.error e
        | Except.ok reason =>
          Except.ok (Message.close_because status_code reason)
    else
      Except.ok Message.close
  | Opcode.Ping => Except.ok (Message.ping data)
  | Opcode.Pong => Except.ok (Message.pong data)
  | Opcode.Continuation =>
    Except.error (WebSocketError.ProtocolError "Unsupported opcode received")

/-- `Message::from_dataframes(frames)`: fail with
`ProtocolError("No dataframes provided")` on an empty sequence; otherwise
take the opcode of the first frame, run the validation loop over all frames
(`collectPayloads`), and dispatch on that opcode.  `none` models a panic
(never reached on frames whose `payload()` is implemented). -/
def Message.from_dataframes (frames : List Frame) :
    Option (WebSocketResult Message) :=
  match frames with
  | [] => some (Except.error (WebSocketError.ProtocolError
      "No dataframes provided"))
  | first :: _ =>
    match collectPayloads frames with
    | none => none
    | some (Except.error e) => some (Except.error e)
    | some (Except.ok data) => some (dispatchOpcode first.opcode data)

/-! Helper lemmas about the validation loop. -/

/-- If the validation loop returns `Ok`, the head frame's opcode passed the
continuation check, i.e. it is `Continuation`. -/
theorem collectPayloads_ok_head {f : Frame} {rest : List Frame} {d : List Nat}
    (h : collectPayloads (f :: rest) = some (Except.ok d)) :
    f.opcode = Opcode.Continuation := by
  by_contra hne
  simp [collectPayloads, hne] at h

/-- Whenever `from_dataframes` returns a `Result` at all (does not panic),
that `Result` is an error. -/
theorem from_dataframes_err {frames : List Frame} {r : WebSocketResult Message}
    (h : Message.from_dataframes frames = some r) : ∃ e, r = Except.error e := by
  cases frames with
  | nil =>
    simp [Message.from_dataframes] at h
    exact ⟨_, h.symm⟩
  | cons f rest =>
    rw [Message.from_dataframes] at h
    cases hc : collectPayloads (f :: rest) with
    | none => rw [hc] at h; simp at h
    | some res =>
      cases res with
      | error e =>
        rw [hc] at h
        simp at h
        exact ⟨e, h.symm⟩
      | ok data =>
        rw [hc] at h
        simp at h
        have hcont := collectPayloads_ok_head hc
        rw [hcont] at h
        simp [dispatchOpcode] at h
        exact ⟨_, h.symm⟩

/-- On frames whose `payload()` accessor is implemented, the validation loop
never panics. -/
theorem collectPayloads_total {frames : List Frame}
    (h : ∀ f ∈ frames, f.payloadBytes.isSome) :
    collectPayloads frames ≠ none := by
  induction frames with
  | nil => simp [collectPayloads]
  | cons f rest ih =>
    rw [collectPayloads]
    by_cases hop : f.opcode = Opcode.Continuation
    · by_cases hrsv : f.reserved = [false, false, false]
      · have hp := h f (by simp)
        cases hpb : f.payloadBytes with
        | none => rw [hpb] at hp; simp at hp
        | some p =>
          have ih2 := ih (fun g hg => h g (by simp [hg]))
          cases hcc : collectPayloads rest with
          | none => exact absurd hcc ih2
          | some res => cases res <;> simp [hop, hrsv, hpb, hcc]
      · simp [hop, hrsv]
    · simp [hop]

/-! Claim theorems. -/

/-- C1: evaluation of the code at the failing input.  The claim exempts the
first frame from the continuation check, but the loop in `from_dataframes`
checks every frame: a single first frame with opcode Text (reserved bits
clear, empty payload) is rejected with the non-continuation protocol error
instead of being taken as the message opcode. -/
theorem first_frame_not_exempt_from_continuation_check :
    Message.from_dataframes
        [⟨true, Opcode.Text, List.replicate 3 false, some []⟩] =
      some (Except.error (WebSocketError.ProtocolError
        "Unexpected non-continuation data frame")) := rfl

/-- C2: evaluation of the code at the failing input.  For every byte
sequence `s`, reassembling the single frame produced by
`text(s).dataframes()` does not return `text(s)`: the frame's opcode is
Text, so the continuation check rejects it immediately. -/
theorem text_dataframes_roundtrip_fails (s : List Nat) :
    Message.from_dataframes ((Message.text s).dataframes.map Message.asFrame) =
      some (Except.error (WebSocketError.ProtocolError
        "Unexpected non-continuation data frame")) := rfl

/-- C3: `from_dataframes` never returns a `Message` on any input frame
sequence, and on every sequence of frames whose `payload()` accessor is
implemented it returns an error. -/
theorem from_dataframes_always_fails (frames : List Frame) :
    (∀ m, Message.from_dataframes frames ≠ some (Except.ok m)) ∧
    ((∀ f ∈ frames, f.payloadBytes.isSome) →
      ∃ e, Message.from_dataframes frames = some (Except.error e)) := by
  constructor
  · intro m hm
    obtain ⟨e, he⟩ := from_dataframes_err hm
    exact Except.noConfusion he
  · intro hp
    cases frames with
    | nil => exact ⟨_, rfl⟩
    | cons f rest =>
      cases hc : collectPayloads (f :: rest) with
      | none => exact absurd hc (collectPayloads_total hp)
      | some res =>
        have hfd : ∃ r, Message.from_dataframes (f :: rest) = some r := by
          rw [Message.from_dataframes, hc]
          cases res with
          | error e => exact ⟨_, rfl⟩
          | ok d => exact ⟨_, rfl⟩
        obtain ⟨r, hr⟩ := hfd
        obtain ⟨e, he⟩ := from_dataframes_err hr
        exact ⟨e, he ▸ hr⟩

/-- C3 witness: a concrete all-Continuation sequence with implemented
payload accessors on which `from_dataframes` returns an error, and a
concrete `Message` it therefore does not return. -/
theorem from_dataframes_always_fails_witness :
    (∃ e, Message.from_dataframes
        [⟨true, Opcode.Continuation, List.replicate 3 false, some [1, 2]⟩] =
      some (Except.error e)) ∧
    Message.from_dataframes
        [⟨true, Opcode.Continuation, List.replicate 3 false, some [1, 2]⟩] ≠
      some (Except.ok (Message.binary [1, 2])) :=
  ⟨(from_dataframes_always_fails _).2 (by decide),
   (from_dataframes_always_fails _).1 _⟩

/-- C4 counterexample: the reason string of the empty-sequence failure is
not the claimed `"no dataframes provided"` (the code capitalizes it). -/
theorem empty_frames_reason_not_lowercase :
    Message.from_dataframes [] ≠
      some (Except.error (WebSocketError.ProtocolError
        "no dataframes provided")) := by
  decide

/-- C4 amended: `from_dataframes` on the empty sequence fails with
`ProtocolError` whose reason is `"No dataframes provided"`. -/
theorem empty_frames_protocol_error :
    Message.from_dataframes [] =
      some (Except.error (WebSocketError.ProtocolError
        "No dataframes provided")) := rfl

/-- C5: evaluation of the code at the failing input.  A single Close frame
with clear reserved bits and empty payload is not reassembled into
`close()`: the continuation check rejects it because Close is not
Continuation. -/
theorem single_close_frame_rejected :
    Message.from_dataframes
        [⟨true, Opcode.Close, List.replicate 3 false, some []⟩] =
      some (Except.error (WebSocketError.ProtocolError
        "Unexpected non-continuation data frame")) := rfl

/-- C6: the Close arm of the opcode dispatch on a non-empty concatenated
buffer reads the first 2 bytes as a big-endian status code (failing with
the short-read I/O error when fewer than 2 bytes are present), decodes the
remaining bytes as UTF-8 into the reason (propagating the decode failure on
invalid UTF-8), and returns `close_because(status, reason)`. -/
theorem close_dispatch_reads_status_and_reason (data : List Nat)
    (h : data ≠ []) :
    (data.length < 2 →
      dispatchOpcode Opcode.Close data = Except.error WebSocketError.IoError) ∧
    (∀ b0 b1 rest, data = b0 :: b1 :: rest →
      dispatchOpcode Opcode.Close data =
        (bytes_to_string rest).map
          (fun reason => Message.close_because (b0 * 256 + b1) reason)) := by
  constructor
  · intro hlt
    cases data with
    | nil => exact absurd rfl h
    | cons b0 tail =>
      cases tail with
      | nil => rfl
      | cons b1 r =>
        simp at hlt
        omega
  · rintro b0 b1 rest rfl
    cases hbs : bytes_to_string rest with
    | error e => simp [dispatchOpcode, readU16BE, hbs, Except.map]
    | ok s => simp [dispatchOpcode, readU16BE, hbs, Except.map]

/-- C6 witness: the Close dispatch at the concrete buffers `[3]` (short
read) and `[3, 232, 97]` (status 1000, reason `"a"`). -/
theorem close_dispatch_reads_status_and_reason_witness :
    dispatchOpcode Opcode.Close [3] = Except.error WebSocketError.IoError ∧
    dispatchOpcode Opcode.Close [3, 232, 97] =
      (bytes_to_string [97]).map
        (fun reason => Message.close_because (3 * 256 + 232) reason) :=
  ⟨(close_dispatch_reads_status_and_reason [3] (by decide)).1 (by decide),
   (close_dispatch_reads_status_and_reason [3, 232, 97] (by decide)).2
     3 232 [97] rfl⟩

/-- C7: `write_payload` writes the close status code as 2 bytes big-endian
first when one is present, then the raw payload bytes; a message without a
status code writes exactly its payload; `close_because(1000, "bye")` writes
`[0x03, 0xE8]` followed by the bytes of `"bye"`. -/
theorem write_payload_status_then_payload :
    (∀ (m : Message) (sink : List Nat) (code : Nat),
      m.cd_status_code = some code →
        m.write_payload sink = sink ++ [code / 256 % 256, code % 256] ++ m.payload) ∧
    (∀ (m : Message) (sink : List Nat), m.cd_status_code = none →
      m.write_payload sink = sink ++ m.payload) ∧
    (∀ sink : List Nat,
      (Message.close_because 1000 [98, 121, 101]).write_payload sink =
        sink ++ [0x03, 0xE8] ++ [98, 121, 101]) := by
  refine ⟨?_, ?_, ?_⟩
  · intro m sink code hc
    simp [Message.write_payload, writeAll, writeU16BE, hc]
  · intro m sink hc
    simp [Message.write_payload, writeAll, hc]
  · intro sink
    simp [Message.write_payload, Message.close_because, Message.new,
      writeAll, writeU16BE]

/-- C7 witness: `write_payload` applied at concrete messages and sinks,
with and without a status code. -/
theorem write_payload_status_then_payload_witness :
    Message.write_payload (Message.close_because 1000 [98, 121, 101]) [] =
      [] ++ [1000 / 256 % 256, 1000 % 256] ++
        (Message.close_because 1000 [98, 121, 101]).payload ∧
    Message.write_payload (Message.ping [5]) [7] =
      [7] ++ (Message.ping [5]).payload :=
  ⟨write_payload_status_then_payload.1 _ [] 1000 rfl,
   write_payload_status_then_payload.2.1 _ [7] rfl⟩

/-- C8: `dataframes()` yields exactly the one-element sequence holding the
message itself (so deriving it leaves the message unchanged), and the
message as a frame reports `is_last() = true` and reserved bits
`[false, false, false]`. -/
theorem dataframes_single_final_frame (m : Message) :
    m.dataframes = [m] ∧ m.dataframes.length = 1 ∧
    m.asFrame.is_last = true ∧
    m.asFrame.reserved = [false, false, false] :=
  ⟨rfl, rfl, rfl, rfl⟩

/-- C9: evaluation of the code at the failing input.  A first frame with
opcode Close and reserved bits `[true, false, false]` does not fail with
the reserved-bits protocol error: the continuation check runs first and
rejects it with the non-continuation error instead. -/
theorem reserved_bits_error_preempted_on_first_frame :
    Message.from_dataframes
        [⟨true, Opcode.Close, [true, false, false], some []⟩] =
      some (Except.error (WebSocketError.ProtocolError
        "Unexpected non-continuation data frame")) := rfl

/-- C10: every constructor establishes the invariant that a status code is
present only on a Close message: `close_because` sets opcode Close, the
given status and the reason bytes; `close()` sets opcode Close, no status
and an empty payload; `text`, `binary`, `ping` and `pong` set no status. -/
theorem constructors_status_code_invariant :
    (∀ code reason,
      (Message.close_because code reason).opcode = Opcode.Close ∧
      (Message.close_because code reason).cd_status_code = some code ∧
      (Message.close_because code reason).payload = reason) ∧
    (Message.close.opcode = Opcode.Close ∧
      Message.close.cd_status_code = none ∧ Message.close.payload = []) ∧
    (∀ s, (Message.text s).cd_status_code = none) ∧
    (∀ b, (Message.binary b).cd_status_code = none) ∧
    (∀ p, (Message.ping p).cd_status_code = none) ∧
    (∀ p, (Message.pong p).cd_status_code = none) :=
  ⟨fun _ _ => ⟨rfl, rfl, rfl⟩, ⟨rfl, rfl, rfl⟩,
   fun _ => rfl, fun _ => rfl, fun _ => rfl, fun _ => rfl⟩
